import Mathlib

/-!
Verification of `src/jaxmp/extras/solve_ik.py` (the jaxmp IK orchestration layer).

The file shallowly embeds the two entry points `solve_ik` and
`solve_ik_with_coll`.  Joint configurations are lists of rationals, SE(3)
elements are wrapped parameter lists, and the nonlinear least-squares engine
(the external `jaxls` library) is a function argument from an assembled
factor graph and solve parameters to a solution.  Factor construction
(`RobotFactors.*_cost_factor`) is modelled as data constructors carrying
exactly the arguments the orchestrator passes; the residual mathematics of
the factor library lives outside `src/` and is modelled from the spec where
a claim needs it.
-/

namespace Jaxmp

/-- Rigid transform in SE(3); `params` stands for the wxyz_xyz parameter
vector of the `jaxlie.SE3` representation. -/
structure SE3 where
  params : List ℚ
  deriving DecidableEq

/-- The identity transform, `jaxlie.SE3.identity()`. -/
def SE3.identity : SE3 := ⟨[1, 0, 0, 0, 0, 0, 0]⟩

/-- Kinematic tree handle; the orchestrator only reads
`kin.num_actuated_joints` from it. -/
structure JaxKinTree where
  num_actuated_joints : Nat
  deriving DecidableEq

/-- Robot collision geometry handle, consumed only by the collision query
service; the orchestrator passes it through unchanged. -/
abbrev RobotColl := Nat

/-- World obstacle geometry handle, passed through unchanged. -/
abbrev CollGeom := Nat

/-- Linear-solver backend for the trust-region step: the
`Literal["cholmod", "conjugate_gradient", "dense_cholesky"]` type of the
`solver_type` argument (sparse direct factorization, iterative conjugate
gradient, dense direct factorization). -/
inductive SolverType
  | cholmod
  | conjugate_gradient
  | dense_cholesky
  deriving DecidableEq

/-- A joint-variable class (`type[jaxls.Var[jax.Array]]`): what matters to
the orchestrator is the default value a bare variable of the class gets. -/
structure JointVarClass where
  default_val : List ℚ
  deriving DecidableEq

/-- A constrained base-pose variable class (`type[jaxls.Var[jaxlie.SE3]]`). -/
structure SE3VarClass where
  default_val : SE3
  deriving DecidableEq

/-- A variable reference `SomeVarClass(id)`: one joint-configuration
variable class and at most one base-pose variable class occur per call, so
a reference is a tag plus the integer id. -/
inductive Var
  | joint (id : Nat)
  | basePose (id : Nat)
  deriving DecidableEq

/-- A value a variable can take. -/
inductive VVal
  | joints (q : List ℚ)
  | pose (p : SE3)
  deriving DecidableEq

/-- An element of the list handed to `jaxls.VarValues.make`: either
`var.with_value(v)` or a bare variable (which takes its class default). -/
inductive VarValueEntry
  | withValue (v : Var) (val : VVal)
  | bare (v : Var)
  deriving DecidableEq

/-- A `jaxls.Factor` as constructed by the `RobotFactors.*_cost_factor`
calls in `solve_ik.py`, carrying the arguments the orchestrator passes. -/
inductive Factor
  | limitCost (jointVarClass : JointVarClass) (varIdx : Nat) (kin : JaxKinTree)
      (weight : List ℚ)
  | limitVelCost (jointVarClass : JointVarClass) (varIdx : Nat) (kin : JaxKinTree)
      (dt : ℚ) (weight : List ℚ) (prev_cfg : List ℚ)
  | restCost (jointVarClass : JointVarClass) (varIdx : Nat) (weight : List ℚ)
  | ikCost (jointVarClass : JointVarClass) (varIdx : Nat) (kin : JaxKinTree)
      (target_pose : List SE3) (target_joint_indices : List Nat) (weight : List ℚ)
      (baseVarClass : Option SE3VarClass) (base_se3_var_idx : Option Nat)
  | manipulabilityCost (jointVarClass : JointVarClass) (varIdx : Nat)
      (kin : JaxKinTree) (target_joint_indices : List Nat) (weight : ℚ)
  | selfCollCost (jointVarClass : JointVarClass) (varIdx : Nat) (kin : JaxKinTree)
      (robot_coll : RobotColl) (margin : ℚ) (weight : ℚ)
  | worldCollCost (jointVarClass : JointVarClass) (varIdx : Nat) (kin : JaxKinTree)
      (robot_coll : RobotColl) (coll : CollGeom) (margin : ℚ) (weight : ℚ)
  deriving DecidableEq

/-- The seven factor kinds of the data model. -/
inductive FactorKind
  | limit
  | limitVel
  | rest
  | ik
  | manipulability
  | selfColl
  | worldColl
  deriving DecidableEq

/-- Kind tag of a factor. -/
def Factor.kind : Factor → FactorKind
  | Factor.limitCost _ _ _ _ => FactorKind.limit
  | Factor.limitVelCost _ _ _ _ _ _ => FactorKind.limitVel
  | Factor.restCost _ _ _ => FactorKind.rest
  | Factor.ikCost _ _ _ _ _ _ _ _ => FactorKind.ik
  | Factor.manipulabilityCost _ _ _ _ _ => FactorKind.manipulability
  | Factor.selfCollCost _ _ _ _ _ _ => FactorKind.selfColl
  | Factor.worldCollCost _ _ _ _ _ _ _ => FactorKind.worldColl

/-- `jaxls.TerminationConfig(...)`. -/
structure TerminationConfig where
  gradient_tolerance : ℚ
  parameter_tolerance : ℚ
  max_iterations : Nat
  deriving DecidableEq

/-- `jaxls.TrustRegionConfig(...)`; `none` means the engine default
damping, `some v` means `lambda_initial=v` was passed. -/
structure TrustRegionConfig where
  lambda_initial : Option ℚ
  deriving DecidableEq

/-- `jaxls.FactorGraph.make(factors, vars, use_onp=...)`. -/
structure Graph where
  factors : List Factor
  vars : List Var
  use_onp : Bool
  deriving DecidableEq

/-- The arguments of `graph.solve(...)`; `linear_solver = none` means the
argument was omitted (the engine default is used). -/
structure SolveParams where
  linear_solver : Option SolverType
  initial_vals : List (Var × VVal)
  trust_region : TrustRegionConfig
  termination : TerminationConfig
  verbose : Bool
  deriving DecidableEq

/-- The solution returned by the engine: looking up a declared variable
returns its final value (`solution[SomeVar(i)]`), separately for the joint
variable class and the base-pose variable class. -/
structure Solution where
  jointAt : Nat → List ℚ
  poseAt : Nat → SE3

/-- The external nonlinear least-squares engine: consumes the assembled
graph and the solve parameters, returns final variable values. -/
abbrev Engine := Graph → SolveParams → Solution

/-- `jaxls.VarValues.make`: resolves each entry to a (variable, value)
pair, a bare variable taking its class default (the joint class's
`default_val`, the base-pose class's `default_val` when present). -/
def varValuesMake (jc : JointVarClass) (sc : Option SE3VarClass) :
    List VarValueEntry → List (Var × VVal)
  | [] => []
  | VarValueEntry.withValue v val :: rest => (v, val) :: varValuesMake jc sc rest
  | VarValueEntry.bare (Var.joint i) :: rest =>
      (Var.joint i, VVal.joints jc.default_val) :: varValuesMake jc sc rest
  | VarValueEntry.bare (Var.basePose i) :: rest =>
      (Var.basePose i, VVal.pose ((sc.map SE3VarClass.default_val).getD SE3.identity))
        :: varValuesMake jc sc rest

/-- The full argument record of `solve_ik`, in source order.  `JointVar`
and `ConstrainedSE3Var` are the caller-supplied variable classes;
`pose_var_idx` is optional because the source guards on it being `None`. -/
structure SolveIkArgs where
  kin : JaxKinTree
  target_pose : List SE3
  target_joint_indices : List Nat
  initial_pose : List ℚ
  JointVar : JointVarClass
  ik_weight : List ℚ
  joint_var_idx : Nat
  rest_weight : ℚ
  limit_weight : ℚ
  joint_vel_weight : ℚ
  dt : ℚ
  use_manipulability : Bool
  manipulability_weight : ℚ
  solver_type : SolverType
  ConstrainedSE3Var : Option SE3VarClass
  pose_var_idx : Option Nat
  max_iterations : Nat
  deriving DecidableEq

/-- `solve_ik` argument record with the source's keyword defaults
(`joint_var_idx=0`, `rest_weight=0.001`, `limit_weight=100.0`,
`joint_vel_weight=0.0`, `dt=0.01`, `use_manipulability=False`,
`manipulability_weight=0.001`, `solver_type="conjugate_gradient"`,
`ConstrainedSE3Var=None`, `pose_var_idx=0`, `max_iterations=50`). -/
def SolveIkArgs.mkDefault (kin : JaxKinTree) (target_pose : List SE3)
    (target_joint_indices : List Nat) (initial_pose : List ℚ)
    (JointVar : JointVarClass) (ik_weight : List ℚ) : SolveIkArgs :=
  ⟨kin, target_pose, target_joint_indices, initial_pose, JointVar, ik_weight,
    0, 1/1000, 100, 0, 1/100, false, 1/1000, SolverType.conjugate_gradient,
    none, some 0, 50⟩

/-- The factor list `solve_ik` assembles: limit, velocity-limit (with
`prev_cfg=initial_pose`), rest, then the pose-match (ik) factor, then the
manipulability factor when `use_manipulability` is set. -/
def solve_ik_factors (a : SolveIkArgs) : List Factor :=
  [Factor.limitCost a.JointVar a.joint_var_idx a.kin
      (List.replicate a.kin.num_actuated_joints a.limit_weight),
    Factor.limitVelCost a.JointVar a.joint_var_idx a.kin a.dt
      (List.replicate a.kin.num_actuated_joints a.joint_vel_weight) a.initial_pose,
    Factor.restCost a.JointVar a.joint_var_idx
      (List.replicate a.kin.num_actuated_joints a.rest_weight)]
  ++ [Factor.ikCost a.JointVar a.joint_var_idx a.kin a.target_pose
        a.target_joint_indices a.ik_weight a.ConstrainedSE3Var a.pose_var_idx]
  ++ (if a.use_manipulability then
        [Factor.manipulabilityCost a.JointVar a.joint_var_idx a.kin
          a.target_joint_indices a.manipulability_weight]
      else [])

/-- The variable list of `solve_ik`: the joint variable, plus the base-pose
variable exactly when both `ConstrainedSE3Var` and `pose_var_idx` are
present. -/
def solve_ik_vars (a : SolveIkArgs) : List Var :=
  [Var.joint a.joint_var_idx]
  ++ (match a.ConstrainedSE3Var, a.pose_var_idx with
      | some _, some p => [Var.basePose p]
      | _, _ => [])

/-- The `joint_var_values` list of `solve_ik`: the joint variable with
explicit value `initial_pose`, plus (under the same guard as the variable
list) the bare base-pose variable. -/
def solve_ik_joint_var_values (a : SolveIkArgs) : List VarValueEntry :=
  [VarValueEntry.withValue (Var.joint a.joint_var_idx) (VVal.joints a.initial_pose)]
  ++ (match a.ConstrainedSE3Var, a.pose_var_idx with
      | some _, some p => [VarValueEntry.bare (Var.basePose p)]
      | _, _ => [])

/-- `jaxls.FactorGraph.make(factors, joint_vars, use_onp=False)` in
`solve_ik`. -/
def solve_ik_graph (a : SolveIkArgs) : Graph :=
  ⟨solve_ik_factors a, solve_ik_vars a, false⟩

/-- The termination configuration `solve_ik` hands to `graph.solve`:
tolerances are literal `1e-5` constants, the iteration cap is the
caller's `max_iterations`. -/
def solve_ik_termination (a : SolveIkArgs) : TerminationConfig :=
  ⟨1/100000, 1/100000, a.max_iterations⟩

/-- The full `graph.solve(...)` parameter record of `solve_ik`. -/
def solve_ik_solve_params (a : SolveIkArgs) : SolveParams :=
  ⟨some a.solver_type,
    varValuesMake a.JointVar a.ConstrainedSE3Var (solve_ik_joint_var_values a),
    ⟨none⟩,
    solve_ik_termination a,
    false⟩

/-- The body of `solve_ik`: assemble the graph, run one engine solve, and
extract `solution[ConstrainedSE3Var(0)]` (or the identity when no base
class was supplied) and `solution[JointVar(0)]` — both extractions use the
literal id 0. -/
def solve_ik (engine : Engine) (a : SolveIkArgs) : SE3 × List ℚ :=
  let solution := engine (solve_ik_graph a) (solve_ik_solve_params a)
  let base_pose := match a.ConstrainedSE3Var with
    | some _ => solution.poseAt 0
    | none => SE3.identity
  (base_pose, solution.jointAt 0)

/-- The full argument record of `solve_ik_with_coll`, in source order, with
the keyword weights after the positional arguments. -/
structure SolveIkWithCollArgs where
  kin : JaxKinTree
  target_joint_indices : List Nat
  target_poses : List SE3
  robot_coll : RobotColl
  world_coll : List CollGeom
  initial_pose : List ℚ
  pos_weight : ℚ
  rot_weight : ℚ
  rest_weight : ℚ
  limit_weight : ℚ
  self_coll_weight : ℚ
  world_coll_weight : ℚ
  deriving DecidableEq

/-- `solve_ik_with_coll` argument record with the source's keyword defaults
(`pos_weight=5.0`, `rot_weight=1.0`, `rest_weight=0.001`,
`limit_weight=100.0`, `self_coll_weight=5.0`, `world_coll_weight=10.0`). -/
def SolveIkWithCollArgs.mkDefault (kin : JaxKinTree)
    (target_joint_indices : List Nat) (target_poses : List SE3)
    (robot_coll : RobotColl) (world_coll : List CollGeom)
    (initial_pose : List ℚ) : SolveIkWithCollArgs :=
  ⟨kin, target_joint_indices, target_poses, robot_coll, world_coll,
    initial_pose, 5, 1, 1/1000, 100, 5, 10⟩

/-- Modelled from the spec: `RobotFactors.get_var_class` lives in
`jaxmp/robot_factors.py`, which is not under `src/`.  Per the spec the
joint variable is to start at the caller-supplied initial guess, so the
class built from `(kin, initial_pose)` has the supplied vector as its
default value. -/
def get_var_class (kin : JaxKinTree) (default_val : List ℚ) : JointVarClass :=
  ⟨default_val⟩

/-- The pose-match weight `solve_ik_with_coll` builds:
`[pos_weight] * 3 + [rot_weight] * 3`. -/
def solve_ik_with_coll_ik_weight (a : SolveIkWithCollArgs) : List ℚ :=
  List.replicate 3 a.pos_weight ++ List.replicate 3 a.rot_weight

/-- The factor list `solve_ik_with_coll` assembles: pose-match (no base
variable in this variant), rest, velocity-limit (with `dt=0.1`, weight
`limit_weight` and `prev=initial_pose`), limit, then the self-collision
factor (margin `0.05`) and one world-collision factor (margin `0.1`) per
obstacle in `world_coll`. -/
def solve_ik_with_coll_factors (a : SolveIkWithCollArgs) : List Factor :=
  let JointVar := get_var_class a.kin a.initial_pose
  [Factor.ikCost JointVar 0 a.kin a.target_poses a.target_joint_indices
      (solve_ik_with_coll_ik_weight a) none none,
    Factor.restCost JointVar 0
      (List.replicate a.kin.num_actuated_joints a.rest_weight),
    Factor.limitVelCost JointVar 0 a.kin (1/10)
      (List.replicate a.kin.num_actuated_joints a.limit_weight) a.initial_pose,
    Factor.limitCost JointVar 0 a.kin
      (List.replicate a.kin.num_actuated_joints a.limit_weight)]
  ++ [Factor.selfCollCost JointVar 0 a.kin a.robot_coll (1/20) a.self_coll_weight]
  ++ a.world_coll.map (fun coll =>
        Factor.worldCollCost JointVar 0 a.kin a.robot_coll coll (1/10)
          a.world_coll_weight)

/-- The variable list of `solve_ik_with_coll`: one joint variable with the
literal id 0 (`joint_var_idx = 0` in the source body). -/
def solve_ik_with_coll_vars : List Var := [Var.joint 0]

/-- The graph of `solve_ik_with_coll`. -/
def solve_ik_with_coll_graph (a : SolveIkWithCollArgs) : Graph :=
  ⟨solve_ik_with_coll_factors a, solve_ik_with_coll_vars, false⟩

/-- The termination configuration `solve_ik_with_coll` hands to
`graph.solve`: tolerances `1e-5` and iteration cap `50`, all literal
constants of the source, taking no caller input. -/
def solve_ik_with_coll_termination : TerminationConfig :=
  ⟨1/100000, 1/100000, 50⟩

/-- The `graph.solve(...)` parameter record of `solve_ik_with_coll`: no
`linear_solver` argument is passed, the initial values are
`VarValues.make(joint_vars)` over the bare joint variable (so it takes the
class default, `initial_pose`), and `lambda_initial=1.0`. -/
def solve_ik_with_coll_solve_params (a : SolveIkWithCollArgs) : SolveParams :=
  ⟨none,
    varValuesMake (get_var_class a.kin a.initial_pose) none
      (solve_ik_with_coll_vars.map VarValueEntry.bare),
    ⟨some 1⟩,
    solve_ik_with_coll_termination,
    false⟩

/-- The body of `solve_ik_with_coll`: assemble, run one engine solve,
return `solution[JointVar(joint_var_idx)]` with `joint_var_idx = 0`. -/
def solve_ik_with_coll (engine : Engine) (a : SolveIkWithCollArgs) : List ℚ :=
  let solution := engine (solve_ik_with_coll_graph a) (solve_ik_with_coll_solve_params a)
  solution.jointAt 0

/-- The `prev_cfg` references carried by the velocity-limit factors of a
factor list, in order. -/
def velPrevCfgs : List Factor → List (List ℚ)
  | [] => []
  | Factor.limitVelCost _ _ _ _ _ prev :: fs => prev :: velPrevCfgs fs
  | _ :: fs => velPrevCfgs fs

/-- The weight vectors carried by the velocity-limit factors of a factor
list, in order. -/
def velWeights : List Factor → List (List ℚ)
  | [] => []
  | Factor.limitVelCost _ _ _ _ w _ :: fs => w :: velWeights fs
  | _ :: fs => velWeights fs

/-- The obstacle geometries carried by the world-collision factors of a
factor list, in order. -/
def worldCollGeoms : List Factor → List CollGeom
  | [] => []
  | Factor.worldCollCost _ _ _ _ coll _ _ :: fs => coll :: worldCollGeoms fs
  | _ :: fs => worldCollGeoms fs

/-- Modelled from the spec: signed excess of a value beyond the interval
`[lower, upper]` — zero inside the interval, distance past the nearest
bound outside (spec, joint-limit factor). -/
def signedExcess (lower upper q : ℚ) : ℚ :=
  if q < lower then q - lower else if upper < q then q - upper else 0

/-- Modelled from the spec: pose-match residual — the 6-vector log-map
error `err` of each target, scaled elementwise by the weight vector
(`RobotFactors.ik_cost_factor` is not under `src/`). -/
def ik_residual (weight err : List ℚ) : List ℚ :=
  List.zipWith (· * ·) weight err

/-- Modelled from the spec: joint-limit residual — per joint, the signed
excess beyond `[lower, upper]`, scaled by the limit weight
(`RobotFactors.limit_cost_factor` is not under `src/`). -/
def limit_residual (weight lower upper q : List ℚ) : List ℚ :=
  List.zipWith (· * ·) weight
    (List.zipWith (fun lu qi => signedExcess lu.1 lu.2 qi) (lower.zip upper) q)

/-- Modelled from the spec: joint-velocity-limit residual — per joint, the
excess of `(cur - prev) / dt` beyond the velocity bound, zero inside,
scaled by the weight (`RobotFactors.limit_vel_cost_factor` is not under
`src/`). -/
def vel_residual (weight : List ℚ) (dt : ℚ) (vel_bound prev cur : List ℚ) : List ℚ :=
  List.zipWith (· * ·) weight
    (List.zipWith (fun b pc => signedExcess (-b) b ((pc.2 - pc.1) / dt))
      vel_bound (prev.zip cur))

/-- Modelled from the spec: rest-pose residual — `(current - rest)` scaled
by the weight (`RobotFactors.rest_cost_factor` is not under `src/`). -/
def rest_residual (weight q rest : List ℚ) : List ℚ :=
  List.zipWith (· * ·) weight (List.zipWith (· - ·) q rest)

/-- Modelled from the spec: manipulability residual — a transform `measure`
of the manipulability measure, scaled by the scalar weight
(`RobotFactors.manipulability_cost_factor` is not under `src/`). -/
def manipulability_residual (weight measure : ℚ) : ℚ :=
  weight * measure

/-- Modelled from the spec: collision residual (self or world) —
`max(0, margin - distance)` scaled by the scalar weight
(`RobotFactors.self_coll_factor` / `world_coll_factor` are not under
`src/`). -/
def coll_residual (weight margin dist : ℚ) : ℚ :=
  weight * max 0 (margin - dist)

/-- The malformed-input conditions of the error-handling design for a
`solve_ik` call: a target index out of range, a target/index length
mismatch, or a negative pose-match weight. -/
def malformed_solve_ik_input (a : SolveIkArgs) : Prop :=
  (∃ i ∈ a.target_joint_indices, a.kin.num_actuated_joints ≤ i) ∨
  a.target_pose.length ≠ a.target_joint_indices.length ∨
  (∃ w ∈ a.ik_weight, w < 0)

/-- The malformed-input conditions of the error-handling design for a
`solve_ik_with_coll` call: a target index out of range, a target/index
length mismatch, an initial configuration whose length differs from the
joint count, or a negative position weight. -/
def malformed_solve_ik_with_coll_input (b : SolveIkWithCollArgs) : Prop :=
  (∃ i ∈ b.target_joint_indices, b.kin.num_actuated_joints ≤ i) ∨
  b.target_poses.length ≠ b.target_joint_indices.length ∨
  b.initial_pose.length ≠ b.kin.num_actuated_joints ∨
  b.pos_weight < 0

/-- A solution stub with the same value at every variable id. -/
def stubSolution (q : List ℚ) : Solution :=
  ⟨fun _ => q, fun _ => SE3.identity⟩

/-- An engine stub that ignores the problem and returns a fixed solution. -/
def stubEngine (q : List ℚ) : Engine :=
  fun _ _ => stubSolution q

/-- An engine stub whose returned values encode the variable id looked up,
so that lookups at different ids are distinguishable. -/
def idEngine : Engine :=
  fun _ _ => ⟨fun i => [(i : ℚ)], fun i => ⟨[(i : ℚ)]⟩⟩

/-- A malformed `solve_ik` input on a 3-joint robot: target index 99 out of
range, zero target poses against one target index, and a negative first
pose-match weight; all other arguments at their defaults. -/
def badIkArgs : SolveIkArgs :=
  SolveIkArgs.mkDefault ⟨3⟩ [] [99] [0, 0, 0] ⟨[0, 0, 0]⟩ [-1, 1, 1, 1, 1, 1]

/-- A malformed `solve_ik_with_coll` input on a 3-joint robot: target index
99 out of range, zero target poses against one target index, an initial
configuration of the wrong length, and a negative position weight. -/
def badCollArgs : SolveIkWithCollArgs :=
  ⟨⟨3⟩, [99], [], 0, [], [0, 0], -5, 1, 1/1000, -100, 5, 10⟩

/-- First concrete `solve_ik` argument record for the termination-config
comparison (defaults on a 2-joint robot). -/
def cexIkArgsA : SolveIkArgs :=
  SolveIkArgs.mkDefault ⟨2⟩ [] [] [0, 0] ⟨[0, 0]⟩ [1, 1, 1, 1, 1, 1]

/-- Second concrete `solve_ik` argument record, differing from
`cexIkArgsA` in every field. -/
def cexIkArgsB : SolveIkArgs :=
  ⟨⟨5⟩, [SE3.identity], [1], [1, 1, 1, 1, 1], ⟨[2, 2, 2, 2, 2]⟩,
    [2, 2, 2, 2, 2, 2], 3, 1, 2, 3, 1/2, true, 4, SolverType.cholmod,
    some ⟨SE3.identity⟩, some 2, 99⟩

/-- First concrete `solve_ik_with_coll` argument record for the
termination-config comparison. -/
def cexCollArgsA : SolveIkWithCollArgs :=
  ⟨⟨2⟩, [0], [SE3.identity], 0, [], [0, 0], 5, 1, 1/1000, 100, 5, 10⟩

/-- Second concrete `solve_ik_with_coll` argument record, differing from
`cexCollArgsA` in every field. -/
def cexCollArgsB : SolveIkWithCollArgs :=
  ⟨⟨4⟩, [1, 2], [], 7, [3], [1, 1, 1, 1], 6, 2, 1, 200, 9, 11⟩

/-- A `solve_ik` argument record whose joint variable id and base-pose
variable id are both 1 rather than 0, with a base-pose class supplied. -/
def argsIdx1 : SolveIkArgs :=
  ⟨⟨2⟩, [], [], [0, 0], ⟨[0, 0]⟩, [1, 1, 1, 1, 1, 1], 1, 1/1000, 100, 0,
    1/100, false, 1/1000, SolverType.conjugate_gradient, some ⟨SE3.identity⟩,
    some 1, 50⟩

/-- A `solve_ik` argument record with joint variable id 0 but base-pose
variable id 1, with a base-pose class supplied: the base-pose-only case of
the non-zero-index calls. -/
def argsPoseIdx1 : SolveIkArgs :=
  ⟨⟨2⟩, [], [], [0, 0], ⟨[0, 0]⟩, [1, 1, 1, 1, 1, 1], 0, 1/1000, 100, 0,
    1/100, false, 1/1000, SolverType.conjugate_gradient, some ⟨SE3.identity⟩,
    some 1, 50⟩

/-- A `solve_ik` argument record with no base-pose class (the defaults) on
a 2-joint robot. -/
def c4Args : SolveIkArgs :=
  SolveIkArgs.mkDefault ⟨2⟩ [] [] [1, 2] ⟨[0, 0]⟩ [1, 1, 1, 1, 1, 1]

/-- The extraction step of `solve_ik`: base pose from
`solution[ConstrainedSE3Var(0)]` when a base class was supplied (identity
otherwise), joints from `solution[JointVar(0)]`. -/
def solve_ik_result (a : SolveIkArgs) (solution : Solution) : SE3 × List ℚ :=
  (match a.ConstrainedSE3Var with
    | some _ => solution.poseAt 0
    | none => SE3.identity,
    solution.jointAt 0)

/-- Zero weights annihilate any residual vector they scale elementwise. -/
theorem zipWith_mul_replicate_zero_all (n : Nat) (xs : List ℚ) :
    (List.zipWith (· * ·) (List.replicate n (0 : ℚ)) xs).all (fun r => r == 0) = true := by
  induction n generalizing xs with
  | zero => rfl
  | succ n ih =>
    cases xs with
    | nil => rfl
    | cons x xs =>
      rw [List.replicate_succ, List.zipWith_cons_cons, List.all_cons, ih xs]
      simp

/-- Mapping the kind tag over a block of world-collision factors yields a
constant block. -/
theorem map_kind_world_factors (jv : JointVarClass) (kin : JaxKinTree)
    (rc : RobotColl) (m w : ℚ) (l : List CollGeom) :
    (l.map fun coll => Factor.worldCollCost jv 0 kin rc coll m w).map Factor.kind
      = List.replicate l.length FactorKind.worldColl := by
  induction l with
  | nil => rfl
  | cons c l ih => simp [Factor.kind, ih, List.replicate_succ]

/-- A block of world-collision factors carries no velocity-limit
reference. -/
theorem velPrevCfgs_world_factors (jv : JointVarClass) (kin : JaxKinTree)
    (rc : RobotColl) (m w : ℚ) (l : List CollGeom) :
    velPrevCfgs (l.map fun coll => Factor.worldCollCost jv 0 kin rc coll m w) = [] := by
  induction l with
  | nil => rfl
  | cons c l ih => simpa [velPrevCfgs] using ih

/-- A block of world-collision factors built from an obstacle list carries
exactly that obstacle list. -/
theorem worldCollGeoms_world_factors (jv : JointVarClass) (kin : JaxKinTree)
    (rc : RobotColl) (m w : ℚ) (l : List CollGeom) :
    worldCollGeoms (l.map fun coll => Factor.worldCollCost jv 0 kin rc coll m w) = l := by
  induction l with
  | nil => rfl
  | cons c l ih => simp [worldCollGeoms, ih]

/-- C1: for every call to either entry point, the joint-configuration
variable's initial value handed to the least-squares engine equals the
caller-supplied `initial_pose`: `solve_ik` passes
`JointVar(joint_var_idx).with_value(initial_pose)` as the head of its
initial-value list, and `solve_ik_with_coll` hands the bare joint variable
whose class default (from `get_var_class(kin, initial_pose)`) is
`initial_pose`. -/
theorem C1_joint_initial_value (a : SolveIkArgs) (b : SolveIkWithCollArgs) :
    (solve_ik_solve_params a).initial_vals.head? =
      some (Var.joint a.joint_var_idx, VVal.joints a.initial_pose) ∧
    (solve_ik_with_coll_solve_params b).initial_vals =
      [(Var.joint 0, VVal.joints b.initial_pose)] :=
  ⟨rfl, rfl⟩

/-- C1 witness at concrete inputs. -/
theorem C1_joint_initial_value_witness :
    (solve_ik_solve_params cexIkArgsA).initial_vals.head? =
      some (Var.joint cexIkArgsA.joint_var_idx, VVal.joints cexIkArgsA.initial_pose) ∧
    (solve_ik_with_coll_solve_params cexCollArgsA).initial_vals =
      [(Var.joint 0, VVal.joints cexCollArgsA.initial_pose)] :=
  C1_joint_initial_value cexIkArgsA cexCollArgsA

/-- C2 counterexample: the gradient and parameter tolerances handed to the
engine are the literal constant `1e-5` in both entry points, and
`solve_ik_with_coll` additionally fixes `max_iterations = 50`; two calls
whose caller-supplied arguments differ in every field receive identical
tolerances, refuting the claim that the tolerances and (for the collision
variant) the iteration cap are solve-time configuration supplied by the
caller. -/
theorem C2_termination_hardcoded_cex :
    cexCollArgsA ≠ cexCollArgsB ∧
    (solve_ik_with_coll_solve_params cexCollArgsA).termination =
      (solve_ik_with_coll_solve_params cexCollArgsB).termination ∧
    (solve_ik_with_coll_solve_params cexCollArgsA).termination =
      (⟨1/100000, 1/100000, 50⟩ : TerminationConfig) ∧
    cexIkArgsA ≠ cexIkArgsB ∧
    (solve_ik_solve_params cexIkArgsA).termination.gradient_tolerance =
      (solve_ik_solve_params cexIkArgsB).termination.gradient_tolerance ∧
    (solve_ik_solve_params cexIkArgsA).termination.gradient_tolerance = 1/100000 ∧
    (solve_ik_solve_params cexIkArgsA).termination.parameter_tolerance = 1/100000 :=
  ⟨by decide, rfl, rfl, by decide, rfl, rfl, rfl⟩

/-- C2 amended: the maximum iteration count of `solve_ik` is the caller's
`max_iterations` argument, but the gradient and parameter tolerances of
both entry points are fixed at `1e-5` in the code, and
`solve_ik_with_coll` also fixes its iteration cap at 50. -/
theorem C2_termination_amended (a : SolveIkArgs) (b : SolveIkWithCollArgs) :
    (solve_ik_solve_params a).termination =
      (⟨1/100000, 1/100000, a.max_iterations⟩ : TerminationConfig) ∧
    (solve_ik_with_coll_solve_params b).termination =
      (⟨1/100000, 1/100000, 50⟩ : TerminationConfig) :=
  ⟨rfl, rfl⟩

/-- C2 amended-claim witness at concrete inputs. -/
theorem C2_termination_amended_witness :
    (solve_ik_solve_params cexIkArgsB).termination =
      (⟨1/100000, 1/100000, cexIkArgsB.max_iterations⟩ : TerminationConfig) ∧
    (solve_ik_with_coll_solve_params cexCollArgsB).termination =
      (⟨1/100000, 1/100000, 50⟩ : TerminationConfig) :=
  C2_termination_amended cexIkArgsB cexCollArgsB

/-- C4: when no constrained-base-pose class is supplied, the variable set
of `solve_ik` is exactly the joint variable (no base-pose variable is
added) and the returned base pose is the SE(3) identity. -/
theorem C4_no_base_var (engine : Engine) (a : SolveIkArgs)
    (h : a.ConstrainedSE3Var = none) :
    solve_ik_vars a = [Var.joint a.joint_var_idx] ∧
    (solve_ik engine a).1 = SE3.identity := by
  constructor
  · simp [solve_ik_vars, h]
  · simp [solve_ik, h]

/-- C4 witness: a concrete call with `ConstrainedSE3Var = none`. -/
theorem C4_no_base_var_witness :
    solve_ik_vars c4Args = [Var.joint c4Args.joint_var_idx] ∧
    (solve_ik idEngine c4Args).1 = SE3.identity :=
  C4_no_base_var idEngine c4Args rfl

/-- C10: the backend type offers three pairwise-distinct linear solvers
(sparse direct `cholmod`, iterative `conjugate_gradient`, dense direct
`dense_cholesky`), and `solve_ik` passes the caller's chosen backend as the
`linear_solver` of the engine's solve. -/
theorem C10_solver_backend (a : SolveIkArgs) :
    (solve_ik_solve_params a).linear_solver = some a.solver_type ∧
    SolverType.cholmod ≠ SolverType.conjugate_gradient ∧
    SolverType.cholmod ≠ SolverType.dense_cholesky ∧
    SolverType.conjugate_gradient ≠ SolverType.dense_cholesky :=
  ⟨rfl, by decide, by decide, by decide⟩

/-- C10 witness at a concrete input. -/
theorem C10_solver_backend_witness :
    (solve_ik_solve_params cexIkArgsB).linear_solver = some cexIkArgsB.solver_type ∧
    SolverType.cholmod ≠ SolverType.conjugate_gradient ∧
    SolverType.cholmod ≠ SolverType.dense_cholesky ∧
    SolverType.conjugate_gradient ≠ SolverType.dense_cholesky :=
  C10_solver_backend cexIkArgsB

/-- C3 counterexample: a concrete input that is malformed in all three
senses of the claim (target index 99 out of range on a 3-joint robot, zero
target poses against one target index, a negative pose-match weight) does
not make `solve_ik` fail with a validation error: the call proceeds to the
engine solve and returns whatever the engine produces — two engines give
two different results — and likewise for a malformed
`solve_ik_with_coll` input. -/
theorem C3_fails_to_validate_cex :
    (∃ i ∈ badIkArgs.target_joint_indices, badIkArgs.kin.num_actuated_joints ≤ i) ∧
    badIkArgs.target_pose.length ≠ badIkArgs.target_joint_indices.length ∧
    (∃ w ∈ badIkArgs.ik_weight, w < 0) ∧
    solve_ik (stubEngine [7, 7, 7]) badIkArgs = (SE3.identity, [7, 7, 7]) ∧
    solve_ik (stubEngine [8, 8, 8]) badIkArgs = (SE3.identity, [8, 8, 8]) ∧
    badCollArgs.initial_pose.length ≠ badCollArgs.kin.num_actuated_joints ∧
    solve_ik_with_coll (stubEngine [7]) badCollArgs = [7] ∧
    solve_ik_with_coll (stubEngine [9]) badCollArgs = [9] :=
  ⟨⟨99, by decide, by decide⟩, by decide, ⟨-1, by decide, by decide⟩,
    rfl, rfl, by decide, rfl, rfl⟩

/-- C3 amended: neither entry point validates its input — a call with a
target index out of range, mismatched vector lengths, or a negative weight
is not rejected before the solve; it proceeds to the engine solve on the
assembled problem and returns the engine's extracted solution (so its
result in general depends on the engine), surfacing no validation error. -/
theorem C3_no_validation_amended (e1 e2 : Engine) (a : SolveIkArgs)
    (b : SolveIkWithCollArgs) (ha : malformed_solve_ik_input a)
    (hb : malformed_solve_ik_with_coll_input b) :
    solve_ik e1 a = solve_ik_result a (e1 (solve_ik_graph a) (solve_ik_solve_params a)) ∧
    ((e1 (solve_ik_graph a) (solve_ik_solve_params a)).jointAt 0 ≠
        (e2 (solve_ik_graph a) (solve_ik_solve_params a)).jointAt 0 →
      solve_ik e1 a ≠ solve_ik e2 a) ∧
    solve_ik_with_coll e1 b =
      (e1 (solve_ik_with_coll_graph b) (solve_ik_with_coll_solve_params b)).jointAt 0 ∧
    ((e1 (solve_ik_with_coll_graph b) (solve_ik_with_coll_solve_params b)).jointAt 0 ≠
        (e2 (solve_ik_with_coll_graph b) (solve_ik_with_coll_solve_params b)).jointAt 0 →
      solve_ik_with_coll e1 b ≠ solve_ik_with_coll e2 b) := by
  refine ⟨rfl, fun hne heq => hne ?_, rfl, fun hne heq => hne heq⟩
  exact congrArg Prod.snd heq

/-- C3 amended-claim witness: the malformed inputs of the counterexample,
with two concrete engines. -/
theorem C3_no_validation_amended_witness :
    (solve_ik (stubEngine [7, 7, 7]) badIkArgs).2 = [7, 7, 7] ∧
    solve_ik (stubEngine [7, 7, 7]) badIkArgs ≠ solve_ik (stubEngine [8, 8, 8]) badIkArgs ∧
    solve_ik_with_coll (stubEngine [7]) badCollArgs ≠
      solve_ik_with_coll (stubEngine [9]) badCollArgs := by
  have h := C3_no_validation_amended (stubEngine [7, 7, 7]) (stubEngine [8, 8, 8])
    badIkArgs badCollArgs (Or.inl ⟨99, by decide, by decide⟩)
    (Or.inr (Or.inr (Or.inl (by decide))))
  have h2 := C3_no_validation_amended (stubEngine [7]) (stubEngine [9])
    badIkArgs badCollArgs (Or.inl ⟨99, by decide, by decide⟩)
    (Or.inr (Or.inr (Or.inl (by decide))))
  exact ⟨congrArg Prod.snd h.1, h.2.1 (by decide), h2.2.2.2 (by decide)⟩

/-- C5: the factor list assembled by `solve_ik_with_coll` with `k` world
obstacles is exactly one pose-match, one rest-pose, one
joint-velocity-limit, one joint-limit, and one self-collision factor
followed by `k` world-collision factors, one per obstacle in order, and
nothing else. -/
theorem C5_coll_factor_kinds (a : SolveIkWithCollArgs) :
    (solve_ik_with_coll_factors a).map Factor.kind =
      [FactorKind.ik, FactorKind.rest, FactorKind.limitVel, FactorKind.limit,
        FactorKind.selfColl]
        ++ List.replicate a.world_coll.length FactorKind.worldColl ∧
    worldCollGeoms (solve_ik_with_coll_factors a) = a.world_coll := by
  constructor
  · simp only [solve_ik_with_coll_factors, List.map_append, map_kind_world_factors]
    rfl
  · simp [solve_ik_with_coll_factors, worldCollGeoms, worldCollGeoms_world_factors]

/-- C5 witness at a concrete input with one obstacle. -/
theorem C5_coll_factor_kinds_witness :
    (solve_ik_with_coll_factors cexCollArgsB).map Factor.kind =
      [FactorKind.ik, FactorKind.rest, FactorKind.limitVel, FactorKind.limit,
        FactorKind.selfColl]
        ++ List.replicate cexCollArgsB.world_coll.length FactorKind.worldColl ∧
    worldCollGeoms (solve_ik_with_coll_factors cexCollArgsB) = cexCollArgsB.world_coll :=
  C5_coll_factor_kinds cexCollArgsB

/-- C6: the factor list assembled by `solve_ik` is exactly the joint-limit,
joint-velocity-limit, rest-pose and pose-match factors, followed by the
manipulability factor exactly when `use_manipulability` is set. -/
theorem C6_ik_factor_kinds (a : SolveIkArgs) :
    (solve_ik_factors a).map Factor.kind =
      [FactorKind.limit, FactorKind.limitVel, FactorKind.rest, FactorKind.ik]
        ++ (if a.use_manipulability then [FactorKind.manipulability] else []) := by
  cases h : a.use_manipulability <;> simp [solve_ik_factors, Factor.kind, h]

/-- C6 witness at a concrete input with the manipulability factor on. -/
theorem C6_ik_factor_kinds_witness :
    (solve_ik_factors cexIkArgsB).map Factor.kind =
      [FactorKind.limit, FactorKind.limitVel, FactorKind.rest, FactorKind.ik]
        ++ (if cexIkArgsB.use_manipulability then [FactorKind.manipulability] else []) :=
  C6_ik_factor_kinds cexIkArgsB

/-- C7: `solve_ik` extracts its return values with the literal variable id
0 regardless of the `joint_var_idx` and `pose_var_idx` arguments — in
particular for every call with `joint_var_idx` or `pose_var_idx` different
from 0: the returned joints are the engine solution's values at id 0,
differing from the values of the variable the factors were attached to
whenever the solution distinguishes id 0 from `joint_var_idx`, and the
returned base pose (when a base class is supplied) is the solution's value
at id 0, not at `pose_var_idx`, whenever the solution distinguishes those
two ids. -/
theorem C7_extracts_index_zero (engine : Engine) (a : SolveIkArgs) :
    (solve_ik engine a).2 =
      (engine (solve_ik_graph a) (solve_ik_solve_params a)).jointAt 0 ∧
    ((engine (solve_ik_graph a) (solve_ik_solve_params a)).jointAt 0 ≠
        (engine (solve_ik_graph a) (solve_ik_solve_params a)).jointAt a.joint_var_idx →
      (solve_ik engine a).2 ≠
        (engine (solve_ik_graph a) (solve_ik_solve_params a)).jointAt a.joint_var_idx) ∧
    (∀ sc, a.ConstrainedSE3Var = some sc →
      (solve_ik engine a).1 =
        (engine (solve_ik_graph a) (solve_ik_solve_params a)).poseAt 0 ∧
      ∀ p, a.pose_var_idx = some p →
        (engine (solve_ik_graph a) (solve_ik_solve_params a)).poseAt 0 ≠
          (engine (solve_ik_graph a) (solve_ik_solve_params a)).poseAt p →
        (solve_ik engine a).1 ≠
          (engine (solve_ik_graph a) (solve_ik_solve_params a)).poseAt p) := by
  refine ⟨rfl, fun hne => hne, fun sc hsc => ⟨?_, ?_⟩⟩
  · simp [solve_ik, hsc]
  · intro p hp hne
    simpa [solve_ik, hsc] using hne

/-- C7 witness: two concrete calls against an engine whose solution values
encode the id looked up — one with `joint_var_idx = 1` and
`pose_var_idx = 1`, one with `joint_var_idx = 0` and `pose_var_idx = 1`
(the base-pose-only case): each returns the id-0 values, not the id-1
ones. -/
theorem C7_extracts_index_zero_witness :
    (solve_ik idEngine argsIdx1).2 = [0] ∧
    (solve_ik idEngine argsIdx1).2 ≠ [1] ∧
    (solve_ik idEngine argsPoseIdx1).1 = (⟨[0]⟩ : SE3) ∧
    (solve_ik idEngine argsPoseIdx1).1 ≠ (⟨[1]⟩ : SE3) := by
  have h1 := C7_extracts_index_zero idEngine argsIdx1
  have hp := (C7_extracts_index_zero idEngine argsPoseIdx1).2.2 ⟨SE3.identity⟩ rfl
  exact ⟨h1.1, fun hc => h1.2.1 (by decide) (by simpa using hc), hp.1,
    fun hc => hp.2 1 rfl (by decide) (by simpa using hc)⟩

/-- C8: in both entry points the joint-velocity-limit factor's
previous-configuration reference is the caller-supplied `initial_pose`,
and the factor list (immutable data assembled before the single engine
invocation) is exactly what the graph hands to the solve, so the reference
stays fixed for the whole solve. -/
theorem C8_vel_prev_cfg (a : SolveIkArgs) (b : SolveIkWithCollArgs) :
    velPrevCfgs (solve_ik_factors a) = [a.initial_pose] ∧
    velPrevCfgs (solve_ik_with_coll_factors b) = [b.initial_pose] ∧
    (solve_ik_graph a).factors = solve_ik_factors a ∧
    (solve_ik_with_coll_graph b).factors = solve_ik_with_coll_factors b := by
  refine ⟨?_, ?_, rfl, rfl⟩
  · cases h : a.use_manipulability <;> simp [solve_ik_factors, velPrevCfgs, h]
  · simp [solve_ik_with_coll_factors, velPrevCfgs, velPrevCfgs_world_factors]

/-- C8 witness at concrete inputs. -/
theorem C8_vel_prev_cfg_witness :
    velPrevCfgs (solve_ik_factors cexIkArgsB) = [cexIkArgsB.initial_pose] ∧
    velPrevCfgs (solve_ik_with_coll_factors cexCollArgsB) = [cexCollArgsB.initial_pose] ∧
    (solve_ik_graph cexIkArgsB).factors = solve_ik_factors cexIkArgsB ∧
    (solve_ik_with_coll_graph cexCollArgsB).factors = solve_ik_with_coll_factors cexCollArgsB :=
  C8_vel_prev_cfg cexIkArgsB cexCollArgsB

/-- C9: a factor of any kind with weight 0 contributes an exactly zero
residual whatever its input — the zero weight vector annihilates the
pose-match, joint-limit, joint-velocity-limit and rest-pose residuals, the
zero scalar weight annihilates the manipulability and collision
residuals — and `solve_ik` with its default `joint_vel_weight = 0.0`
assembles a joint-velocity-limit factor whose weight vector is all zeros,
so its residual is exactly zero on any configuration. -/
theorem C9_zero_weight_zero_residual :
    (∀ (n : Nat) (err : List ℚ),
      (ik_residual (List.replicate n 0) err).all (fun r => r == 0) = true) ∧
    (∀ (n : Nat) (lower upper q : List ℚ),
      (limit_residual (List.replicate n 0) lower upper q).all (fun r => r == 0) = true) ∧
    (∀ (n : Nat) (dt : ℚ) (bound prev cur : List ℚ),
      (vel_residual (List.replicate n 0) dt bound prev cur).all (fun r => r == 0) = true) ∧
    (∀ (n : Nat) (q rest : List ℚ),
      (rest_residual (List.replicate n 0) q rest).all (fun r => r == 0) = true) ∧
    (∀ measure : ℚ, manipulability_residual 0 measure = 0) ∧
    (∀ margin dist : ℚ, coll_residual 0 margin dist = 0) ∧
    (∀ (kin : JaxKinTree) (tp : List SE3) (tji : List Nat) (ip : List ℚ)
        (jv : JointVarClass) (iw : List ℚ),
      velWeights (solve_ik_factors (SolveIkArgs.mkDefault kin tp tji ip jv iw)) =
        [List.replicate kin.num_actuated_joints 0]) ∧
    (∀ (kin : JaxKinTree) (tp : List SE3) (tji : List Nat) (ip : List ℚ)
        (jv : JointVarClass) (iw : List ℚ) (dt : ℚ) (bound prev cur : List ℚ),
      (vel_residual
          ((velWeights (solve_ik_factors (SolveIkArgs.mkDefault kin tp tji ip jv iw))).headD [])
          dt bound prev cur).all (fun r => r == 0) = true) := by
  refine ⟨fun n err => zipWith_mul_replicate_zero_all n err,
    fun n lower upper q => zipWith_mul_replicate_zero_all n _,
    fun n dt bound prev cur => zipWith_mul_replicate_zero_all n _,
    fun n q rest => zipWith_mul_replicate_zero_all n _,
    fun measure => zero_mul measure,
    fun margin dist => zero_mul _,
    fun kin tp tji ip jv iw => rfl,
    fun kin tp tji ip jv iw dt bound prev cur => ?_⟩
  exact zipWith_mul_replicate_zero_all kin.num_actuated_joints _

end Jaxmp
